import Mathlib

/-!
Shallow embedding of the Maplas backend (src/backend/main.go).

The backend keeps all durable state in four relational tables (places, users,
comments, favorites).  The embedding models the store as explicit lists of
rows together with the SERIAL id counters, and each HTTP handler branch as a
pure function from a store state (plus the decoded request) to a new store
state and response.  External collaborators that the handlers call are taken
as parameters: the Turkish title-casing function from golang.org/x/text
(parameter `titleCase`), the bcrypt hash (parameter `hash`) and the JWT
verification (parameter `validate`, mapping a token string to the claims it
verifies to, if any).
-/

namespace Maplas

/-- A row of the `places` table: id SERIAL, name/description JSONB (a mapping
from language code to text, modelled as an association list), lat/lng,
category, city, image_url, status (the string 'pending' or 'approved'),
creator_id (nullable reference to users). -/
structure PlaceRow where
  id : Nat
  name : List (String × String)
  description : List (String × String)
  lat : ℝ
  lng : ℝ
  category : String
  city : String
  imageURL : String
  status : String
  creatorId : Option Nat

/-- A row of the `users` table (with the columns added by the ALTER TABLE
migrations in initDB: email, bio, avatar_url, points). -/
structure UserRow where
  id : Nat
  username : String
  passwordHash : String
  role : String
  email : String
  bio : String
  avatarURL : String
  points : Int
  deriving DecidableEq

/-- A row of the `comments` table.  created_at is filled from a logical
clock carried by the store state. -/
structure CommentRow where
  id : Nat
  placeId : Nat
  content : String
  rating : Int
  createdAt : Nat
  userId : Option Nat
  deriving DecidableEq

/-- The whole relational store: the four tables, the SERIAL counters and a
logical clock standing for CURRENT_TIMESTAMP.  The `favorites` table is a
list of (user_id, place_id) pairs. -/
structure DB where
  places : List PlaceRow
  users : List UserRow
  comments : List CommentRow
  favorites : List (Nat × Nat)
  nextPlaceId : Nat
  nextUserId : Nat
  nextCommentId : Nat
  clock : Nat

/-- The JWT claims carried by a token (struct Claims in main.go). -/
structure Claims where
  username : String
  role : String

/-- The decoded body of a register/login request (struct Credentials). -/
structure Credentials where
  username : String
  password : String
  secretCode : String

/-- The decoded body of a place creation request (struct PlaceRequest). -/
structure PlaceRequest where
  name : String
  description : String
  lat : ℝ
  lng : ℝ
  category : String
  city : String
  imageURL : String

/-- Outcome of registerHandler, as seen by the client. -/
inductive RegResult
  | created (role : String)
  | validationError
  | conflictError
  deriving DecidableEq

/-- Error responses produced by the authorization wrappers: 401 for a
missing Authorization header, 403 for an invalid token or a non-admin
role. -/
inductive HttpError
  | unauthorized
  | forbidden
  deriving DecidableEq

/-- Whether an Except response is a success (a 2xx response). -/
def isOk {α : Type} : Except HttpError α → Bool
  | Except.ok _ => true
  | Except.error _ => false

/-- translateContent in main.go: the external translation call is disabled
in the source, so every target language receives the original text; the
result maps tr and each of en, de, fr, ru, ar to the input. -/
def translateContent (text : String) : List (String × String) :=
  ("tr", text) :: (["en", "de", "fr", "ru", "ar"].map (fun lang => (lang, text)))

/-- strings.TrimPrefix(authHeader, "Bearer "): drop the prefix when present,
otherwise return the string unchanged. -/
def trimBearer (s : String) : String :=
  if s.startsWith "Bearer " then s.drop 7 else s

/-- adminOnly in main.go: missing Authorization header gives 401; a token
that does not validate, or validates to a role other than admin, gives 403;
otherwise the wrapped handler runs. -/
def adminOnly {α : Type} (validate : String → Option Claims) (authHeader : Option String)
    (next : Unit → α) : Except HttpError α :=
  match authHeader with
  | none => Except.error HttpError.unauthorized
  | some h =>
    match validate (trimBearer h) with
    | none => Except.error HttpError.forbidden
    | some claims =>
      if claims.role = "admin" then Except.ok (next ()) else Except.error HttpError.forbidden

/-- Whether a request carries a header whose token validates to an admin
role; this is exactly the condition under which adminOnly runs the wrapped
handler. -/
def isAdminRequest (validate : String → Option Claims) (authHeader : Option String) : Bool :=
  match authHeader with
  | none => false
  | some h =>
    match validate (trimBearer h) with
    | none => false
    | some claims => claims.role == "admin"

/-- registerHandler in main.go: reject a password shorter than 6 with a
ValidationError before touching the store; assign role admin exactly when
the supplied secret code equals the configured admin secret; the INSERT
fails with a ConflictError when the username is already taken (the UNIQUE
constraint on users.username); otherwise a new user row is stored with the
bcrypt hash of the password.  The hash function is a parameter. -/
def registerHandler (hash : String → String) (adminSecret : String) (db : DB)
    (creds : Credentials) : DB × RegResult :=
  if creds.password.length < 6 then (db, RegResult.validationError)
  else
    let role := if creds.secretCode = adminSecret then "admin" else "user"
    if db.users.any (fun u => u.username == creds.username) then (db, RegResult.conflictError)
    else
      let u : UserRow :=
        { id := db.nextUserId, username := creds.username,
          passwordHash := hash creds.password, role := role,
          email := "", bio := "", avatarURL := "", points := 0 }
      ({ db with users := u :: db.users, nextUserId := db.nextUserId + 1 },
        RegResult.created role)

/-- UPDATE users SET points = points + amount WHERE id = uid. -/
def awardPoints (uid : Nat) (amount : Int) (users : List UserRow) : List UserRow :=
  users.map (fun u => if u.id = uid then { u with points := u.points + amount } else u)

/-- The POST branch of placesHandler: normalize the city through the
external Turkish title-casing function, expand name and description through
translateContent, and INSERT the place with status 'pending'; when a
creator is identified from the Authorization header (creatorID > 0) the row
records the creator and that user's points are increased by 50, otherwise
the row has no creator and no points change.  Returns the new store state
and the created row (the handler's 201 response body). -/
def placesPost (titleCase : String → String) (db : DB) (pr : PlaceRequest)
    (creatorID : Nat) : DB × PlaceRow :=
  let row : PlaceRow :=
    { id := db.nextPlaceId, name := translateContent pr.name,
      description := translateContent pr.description,
      lat := pr.lat, lng := pr.lng, category := pr.category,
      city := titleCase pr.city, imageURL := pr.imageURL,
      status := "pending",
      creatorId := if creatorID > 0 then some creatorID else none }
  let users := if creatorID > 0 then awardPoints creatorID 50 db.users else db.users
  ({ db with
      places := row :: db.places
      users := users
      nextPlaceId := db.nextPlaceId + 1 }, row)

/-- EXISTS(SELECT 1 FROM favorites f WHERE f.place_id = p.id AND
f.user_id = viewer): the is_favorite column computed by the GET query. -/
def isFavoriteFlag (db : DB) (viewer : Nat) (placeId : Nat) : Bool :=
  db.favorites.any (fun f => f.2 == placeId && f.1 == viewer)

/-- The GET branch of placesHandler without proximity parameters:
SELECT ... FROM places p WHERE p.status = 'approved' ORDER BY id DESC,
each row decorated with its is_favorite flag for the viewing user
(0 when anonymous). -/
def placesGet (db : DB) (viewer : Nat) : List (PlaceRow × Bool) :=
  (List.insertionSort (fun a b : PlaceRow => b.id ≤ a.id)
      (db.places.filter (fun p => p.status == "approved"))).map
    (fun p => (p, isFavoriteFlag db viewer p.id))

/-- UPDATE places SET status = 'approved' WHERE id = target, applied to one
row. -/
def approveRow (target : Nat) (p : PlaceRow) : PlaceRow :=
  if p.id = target then { p with status := "approved" } else p

/-- The approve action of adminHandler:
UPDATE places SET status = 'approved' WHERE id = target. -/
def approvePlace (db : DB) (target : Nat) : DB :=
  { db with places := db.places.map (approveRow target) }

/-- The reject action of adminHandler: DELETE FROM places WHERE id = target
(rejection is a hard delete, not a third status). -/
def rejectPlace (db : DB) (target : Nat) : DB :=
  { db with places := db.places.filter (fun p => !(p.id == target)) }

/-- The POST branch of adminHandler, wrapped in adminOnly: for action
approve run the status UPDATE, for action reject run the DELETE, and for
any other action do nothing; in every authorized case the handler answers
200 with the resulting store state. -/
def adminPost (validate : String → Option Claims) (authHeader : Option String)
    (action : String) (target : Nat) (db : DB) : Except HttpError DB :=
  adminOnly validate authHeader (fun _ =>
    if action == "approve" || action == "reject" then
      (if action == "approve" then approvePlace db target else rejectPlace db target)
    else db)

/-- The foreign-key constraint REFERENCES places(id) created by initDB:
whether the places table holds a row with the given id.  The store (not
the handler code) checks it when a referencing row is inserted. -/
def fkPlaceExists (db : DB) (placeId : Nat) : Bool :=
  db.places.any (fun p => p.id == placeId)

/-- The foreign-key constraint REFERENCES users(id) created by initDB:
whether the users table holds a row with the given id. -/
def fkUserExists (db : DB) (userID : Nat) : Bool :=
  db.users.any (fun u => u.id == userID)

/-- The POST branch of commentsHandler: the handler performs no existence
check of its own and directly attempts the INSERT of the comment with the
supplied place_id, content and rating (no range check on rating).  The
comments.place_id column REFERENCES places(id), so the INSERT persists the
row (and consumes the SERIAL) exactly when the place exists; when it does
not, the store rejects the INSERT and nothing is persisted, but the
handler ignores the Scan error, so it still answers 201 echoing the
decoded body whose id and created_at fields were never filled in (their
zero values).  Independently of the insert outcome, when a user was
identified from the Authorization header (userID > 0) the row records the
user and the unconditional points UPDATE adds 10 to that user. -/
def commentsPost (db : DB) (placeId : Nat) (content : String) (rating : Int)
    (userID : Nat) : DB × CommentRow :=
  let inserted := fkPlaceExists db placeId
  let c : CommentRow :=
    { id := if inserted then db.nextCommentId else 0, placeId := placeId,
      content := content, rating := rating,
      createdAt := if inserted then db.clock else 0,
      userId := if userID > 0 then some userID else none }
  let users := if userID > 0 then awardPoints userID 10 db.users else db.users
  ({ db with
      comments := if inserted then c :: db.comments else db.comments
      users := users
      nextCommentId := if inserted then db.nextCommentId + 1 else db.nextCommentId
      clock := db.clock + 1 }, c)

/-- The POST branch of favoritesHandler: INSERT INTO favorites (user_id,
place_id) VALUES (u, p) ON CONFLICT DO NOTHING.  Both columns carry the
REFERENCES constraints from initDB, so when the referenced user and place
both exist the insert succeeds (a duplicate of the (user_id, place_id)
primary key leaves the table unchanged) and the handler answers 201,
reported as the flag true; when a referenced row is missing the store
rejects the INSERT, nothing is stored and the handler answers 500
Database error, reported as the flag false. -/
def favoritesPost (db : DB) (userID placeId : Nat) : DB × Bool :=
  if fkUserExists db userID && fkPlaceExists db placeId then
    (if db.favorites.any (fun f => f.1 == userID && f.2 == placeId) then db
     else { db with favorites := (userID, placeId) :: db.favorites }, true)
  else (db, false)

/-- The DELETE branch of favoritesHandler: DELETE FROM favorites WHERE
user_id = u AND place_id = p; deleting zero rows is not an error. -/
def favoritesDelete (db : DB) (userID placeId : Nat) : DB :=
  { db with favorites := db.favorites.filter (fun f => !(f.1 == userID && f.2 == placeId)) }

/-- The PUT branch of placesHandler: the body is decoded and run through
translateContent, but both results are discarded (_ = nameJSON; _ =
descJSON in the source); no store operation is issued and the response is a
fixed status message. -/
def placesPut (db : DB) (pr : PlaceRequest) : DB × String :=
  let _ := translateContent pr.name
  let _ := translateContent pr.description
  (db, "Update not fully implemented in multi-language mode yet")

/-- The point balance of the user with the given id, when present. -/
def userPoints (db : DB) (uid : Nat) : Option Int :=
  (db.users.find? (fun u => u.id == uid)).map (fun u => u.points)

/-- radians(x) as computed by PostgreSQL: degrees to radians. -/
noncomputable def radians (x : ℝ) : ℝ := x * Real.pi / 180

/-- The great-circle distance computed inside the proximity query of
placesHandler: 6371 * acos(cos(radians(qlat)) * cos(radians(lat)) *
cos(radians(lng) - radians(qlng)) + sin(radians(qlat)) * sin(radians(lat))),
the spherical law-of-cosines formula with Earth radius 6371 km. -/
noncomputable def distanceKm (qlat qlng plat plng : ℝ) : ℝ :=
  6371 * Real.arccos (Real.cos (radians qlat) * Real.cos (radians plat) *
    Real.cos (radians plng - radians qlng) +
    Real.sin (radians qlat) * Real.sin (radians plat))

/-- The GET branch of placesHandler when lat, lng and radius are all
supplied: from the approved places, keep those whose distance to the query
point is strictly below the radius, ORDER BY distance ASC, and decorate
each row with its is_favorite flag for the viewing user. -/
noncomputable def placesProximityGet (db : DB) (viewer : Nat)
    (qlat qlng radius : ℝ) : List (PlaceRow × Bool) :=
  (List.insertionSort
      (fun a b : PlaceRow =>
        distanceKm qlat qlng a.lat a.lng ≤ distanceKm qlat qlng b.lat b.lng)
      ((db.places.filter (fun p => p.status == "approved")).filter
        (fun p => decide (distanceKm qlat qlng p.lat p.lng < radius)))).map
    (fun p => (p, isFavoriteFlag db viewer p.id))

/-- A store state with all tables empty, as produced by initDB on a fresh
database (SERIAL counters start at 1). -/
def emptyDB : DB :=
  { places := [], users := [], comments := [], favorites := [],
    nextPlaceId := 1, nextUserId := 1, nextCommentId := 1, clock := 0 }

/-- A concrete pending place row used by the concrete instantiations. -/
def rowW : PlaceRow :=
  { id := 1, name := [("tr", "kale")], description := [], lat := 0, lng := 0,
    category := "castle", city := "Ankara", imageURL := "", status := "pending",
    creatorId := none }

/-- A store holding one pending place. -/
def dbW : DB := { emptyDB with places := [rowW], nextPlaceId := 2 }

/-- A store holding one user with zero points. -/
def aliceDB : DB :=
  { emptyDB with
    users := [{ id := 1, username := "alice", passwordHash := "h", role := "user",
                email := "", bio := "", avatarURL := "", points := 0 }],
    nextUserId := 2 }

/-- A store holding one user (id 1) and one place (id 1) and no favorites,
so both foreign keys of a favorites insert for (1, 1) are satisfied. -/
def favDB : DB := { aliceDB with places := [rowW], nextPlaceId := 2 }

/-- A concrete place creation request. -/
def prW : PlaceRequest :=
  { name := "kale", description := "eski kale", lat := 0, lng := 0,
    category := "castle", city := "ankara", imageURL := "" }

/-- A token verifier accepting every token as the admin user. -/
def validateW : String → Option Claims :=
  fun _ => some { username := "root", role := "admin" }

/-- A concrete Authorization header. -/
def hdrW : Option String := some "Bearer tok"

/-- A concrete valid registration request (no secret code supplied). -/
def credsW : Credentials := { username := "alice", password := "secret1", secretCode := "" }

/-- A concrete registration request with a password of length 5. -/
def credsShortW : Credentials := { username := "bob", password := "abc12", secretCode := "" }

/-- C4.  For every registration with password length at least 6 and a
username not already present, registerHandler succeeds and stores a user
whose role is admin exactly when the supplied secret code equals the
configured admin secret, and user otherwise. -/
theorem register_role_iff_secret (hash : String → String) (adminSecret : String)
    (db : DB) (creds : Credentials)
    (hlen : 6 ≤ creds.password.length)
    (hfresh : ∀ u ∈ db.users, u.username ≠ creds.username) :
    (registerHandler hash adminSecret db creds).2
        = RegResult.created (if creds.secretCode = adminSecret then "admin" else "user")
      ∧ ∃ u ∈ (registerHandler hash adminSecret db creds).1.users,
          u.username = creds.username
            ∧ u.role = (if creds.secretCode = adminSecret then "admin" else "user")
            ∧ u.passwordHash = hash creds.password := by
  have h1 : ¬ creds.password.length < 6 := Nat.not_lt.mpr hlen
  have h2 : db.users.any (fun u => u.username == creds.username) = false := by
    rw [List.any_eq_false]
    intro u hu
    simpa using hfresh u hu
  unfold registerHandler
  simp only [if_neg h1, h2, Bool.false_eq_true, if_false]
  exact ⟨trivial, _, List.mem_cons_self _ _, rfl, rfl, rfl⟩

/-- Witness for C4 at a concrete input: registering alice with password
secret1 and no secret code on an empty store yields role user. -/
theorem register_role_iff_secret_witness :
    (registerHandler (fun s => s) "Maplas-2026" emptyDB credsW).2
        = RegResult.created (if credsW.secretCode = "Maplas-2026" then "admin" else "user")
      ∧ ∃ u ∈ (registerHandler (fun s => s) "Maplas-2026" emptyDB credsW).1.users,
          u.username = credsW.username
            ∧ u.role = (if credsW.secretCode = "Maplas-2026" then "admin" else "user")
            ∧ u.passwordHash = (fun s : String => s) credsW.password :=
  register_role_iff_secret (fun s => s) "Maplas-2026" emptyDB credsW
    (by decide) (by intro u hu; simp [emptyDB] at hu)

/-- C5.  A registration whose password is shorter than 6 characters fails
with a ValidationError and leaves the store completely unchanged. -/
theorem register_short_password_rejected (hash : String → String) (adminSecret : String)
    (db : DB) (creds : Credentials) (hlen : creds.password.length < 6) :
    registerHandler hash adminSecret db creds = (db, RegResult.validationError) := by
  unfold registerHandler
  rw [if_pos hlen]

/-- Witness for C5 at a concrete input: a 5-character password is rejected
and the store is returned unchanged. -/
theorem register_short_password_rejected_witness :
    registerHandler (fun s => s) "Maplas-2026" emptyDB credsShortW
      = (emptyDB, RegResult.validationError) :=
  register_short_password_rejected (fun s => s) "Maplas-2026" emptyDB credsShortW (by decide)

/-- C9.  Whenever the supplied place id refers to an existing place,
commentsPost succeeds: it stores the comment with that place id and the
supplied rating unchanged (no range validation), prepends exactly one
comment row, and leaves the places table untouched — the handler itself
performs no existence check before attempting the insert, only the store's
foreign key constrains it. -/
theorem comments_post_no_checks (db : DB) (pid : Nat) (content : String)
    (rating : Int) (uid : Nat) (hex : fkPlaceExists db pid = true) :
    (commentsPost db pid content rating uid).2.placeId = pid
      ∧ (commentsPost db pid content rating uid).2.rating = rating
      ∧ (commentsPost db pid content rating uid).1.comments
          = (commentsPost db pid content rating uid).2 :: db.comments
      ∧ (commentsPost db pid content rating uid).1.places = db.places := by
  simp [commentsPost, hex]

/-- Witness for C9 at a concrete input: on the store holding place 1, an
anonymous comment on place 1 with rating 5 is persisted in front of the
empty comments table with the rating unchanged. -/
theorem comments_post_no_checks_witness :
    (commentsPost dbW 1 "nice" 5 0).2.placeId = 1
      ∧ (commentsPost dbW 1 "nice" 5 0).2.rating = 5
      ∧ (commentsPost dbW 1 "nice" 5 0).1.comments
          = (commentsPost dbW 1 "nice" 5 0).2 :: dbW.comments
      ∧ (commentsPost dbW 1 "nice" 5 0).1.places = dbW.places :=
  comments_post_no_checks dbW 1 "nice" 5 0 rfl

/-- C10.  The PUT branch of placesHandler never touches the store: it
returns the state unchanged together with a fixed status message. -/
theorem places_put_no_effect (db : DB) (pr : PlaceRequest) :
    placesPut db pr = (db, "Update not fully implemented in multi-language mode yet") :=
  rfl

/-- Helper: a filter by a predicate is unchanged by filtering again with
the same predicate. -/
theorem filter_self_idem {α : Type} (p : α → Bool) (l : List α) :
    (l.filter p).filter p = l.filter p := by
  induction l with
  | nil => rfl
  | cons a l ih =>
    cases h : p a with
    | true => simp [List.filter_cons, h, ih]
    | false => simp [List.filter_cons, h, ih]

/-- C8.  On any state where the referenced user and place both exist (the
reachable situation: the handler resolved the user from a valid token and
the place id names a stored place, so the foreign keys of the favorites
table are satisfied), adding the same favorite twice is a silent no-op:
the second add succeeds (201, not an error) and returns the state
unchanged; starting additionally from a state without the pair, the double
add leaves exactly one (user, place) row; and deleting a favorite that is
not present returns the state unchanged (the DELETE is total). -/
theorem favorites_add_idempotent_remove_total (db : DB) (u p : Nat)
    (hu : fkUserExists db u = true) (hp : fkPlaceExists db p = true) :
    favoritesPost (favoritesPost db u p).1 u p = ((favoritesPost db u p).1, true)
      ∧ (db.favorites.any (fun f => f.1 == u && f.2 == p) = false →
          (favoritesPost (favoritesPost db u p).1 u p).1.favorites.countP
              (fun f => f.1 == u && f.2 == p) = 1)
      ∧ (db.favorites.any (fun f => f.1 == u && f.2 == p) = false →
          favoritesDelete db u p = db) := by
  have hu' : db.users.any (fun x => x.id == u) = true := hu
  have hp' : db.places.any (fun x => x.id == p) = true := hp
  refine ⟨?_, ?_, ?_⟩
  · by_cases hpair : db.favorites.any (fun f => f.1 == u && f.2 == p) = true
    · simp [favoritesPost, fkUserExists, fkPlaceExists, hu', hp', hpair]
    · rw [Bool.not_eq_true] at hpair
      simp [favoritesPost, fkUserExists, fkPlaceExists, hu', hp', hpair]
  · intro h
    have hnone : ∀ f ∈ db.favorites, ¬ ((f.1 == u && f.2 == p) = true) :=
      List.any_eq_false.mp h
    have hcount : db.favorites.countP (fun f => f.1 == u && f.2 == p) = 0 :=
      List.countP_eq_zero.mpr hnone
    simp [favoritesPost, fkUserExists, fkPlaceExists, hu', hp', h,
      List.countP_cons, hcount]
  · intro h
    have hnone : ∀ f ∈ db.favorites, ¬ ((f.1 == u && f.2 == p) = true) :=
      List.any_eq_false.mp h
    have hfilter : db.favorites.filter (fun f => !(f.1 == u && f.2 == p)) = db.favorites :=
      List.filter_eq_self.mpr (fun f hf => by
        have hx := hnone f hf
        simp only [Bool.not_eq_true] at hx
        simp [hx])
    exact congrArg (fun l => { db with favorites := l }) hfilter

/-- Witness for C8 at a concrete input: on the store holding user 1 and
place 1 (both foreign keys satisfied) and no favorite yet, the second add
of (1, 1) succeeds and changes nothing, exactly one row remains after the
double add, and the delete of the absent favorite is the identity. -/
theorem favorites_add_idempotent_remove_total_witness :
    favoritesPost (favoritesPost favDB 1 1).1 1 1 = ((favoritesPost favDB 1 1).1, true)
      ∧ (favoritesPost (favoritesPost favDB 1 1).1 1 1).1.favorites.countP
          (fun f => f.1 == 1 && f.2 == 1) = 1
      ∧ favoritesDelete favDB 1 1 = favDB :=
  ⟨(favorites_add_idempotent_remove_total favDB 1 1 rfl rfl).1,
    (favorites_add_idempotent_remove_total favDB 1 1 rfl rfl).2.1 rfl,
    (favorites_add_idempotent_remove_total favDB 1 1 rfl rfl).2.2 rfl⟩

/-- Helper: applying the approve update twice to one row is the same as
applying it once. -/
theorem approveRow_approveRow (target : Nat) (p : PlaceRow) :
    approveRow target (approveRow target p) = approveRow target p := by
  unfold approveRow
  by_cases h : p.id = target
  · simp [h]
  · simp [h]

/-- Helper: the approve UPDATE is idempotent on the whole table. -/
theorem map_approveRow_idem (target : Nat) (l : List PlaceRow) :
    (l.map (approveRow target)).map (approveRow target) = l.map (approveRow target) := by
  rw [List.map_map]
  exact List.map_congr_left (fun p _ => approveRow_approveRow target p)

/-- Helper: the approve UPDATE leaves a table without the target id
unchanged. -/
theorem map_approveRow_of_not_mem (target : Nat) (l : List PlaceRow)
    (h : ∀ p ∈ l, p.id ≠ target) : l.map (approveRow target) = l := by
  induction l with
  | nil => rfl
  | cons a l ih =>
    have ha : a.id ≠ target := h a (List.mem_cons_self a l)
    simp [approveRow, ha, ih (fun p hp => h p (List.mem_cons_of_mem a hp))]

/-- Helper: approving a place twice produces the same store as approving it
once. -/
theorem approvePlace_idem (db : DB) (target : Nat) :
    approvePlace (approvePlace db target) target = approvePlace db target :=
  congrArg (fun l => { db with places := l }) (map_approveRow_idem target db.places)

/-- Helper: rejecting a place twice produces the same store as rejecting it
once. -/
theorem rejectPlace_idem (db : DB) (target : Nat) :
    rejectPlace (rejectPlace db target) target = rejectPlace db target :=
  congrArg (fun l => { db with places := l })
    (filter_self_idem (fun p => !(p.id == target)) db.places)

/-- Helper: after a reject, no row with the rejected id remains. -/
theorem rejectPlace_removes (db : DB) (target : Nat) :
    ∀ p ∈ (rejectPlace db target).places, p.id ≠ target := by
  intro p hp
  have h := List.mem_filter.mp hp
  simpa using h.2

/-- Helper: approving an id that was just rejected leaves the store
unchanged. -/
theorem approvePlace_rejectPlace (db : DB) (target : Nat) :
    approvePlace (rejectPlace db target) target = rejectPlace db target :=
  congrArg (fun l => { db with places := l })
    (map_approveRow_of_not_mem target _ (rejectPlace_removes db target))

/-- Helper: when the request is admin-authenticated, adminPost runs the
store operation selected by the action and answers 200. -/
theorem adminPost_eq_ok (validate : String → Option Claims) (authHeader : Option String)
    (action : String) (target : Nat) (db : DB)
    (h : isAdminRequest validate authHeader = true) :
    adminPost validate authHeader action target db
      = Except.ok (if action == "approve" || action == "reject" then
          (if action == "approve" then approvePlace db target else rejectPlace db target)
        else db) := by
  unfold isAdminRequest at h
  unfold adminPost adminOnly
  cases authHeader with
  | none => simp at h
  | some s =>
    cases hv : validate (trimBearer s) with
    | none => simp [hv] at h
    | some c =>
      simp only [hv] at h
      rw [beq_iff_eq] at h
      simp [hv, h]

/-- Helper: when the request is not admin-authenticated, adminPost answers
an error and no store state is produced. -/
theorem adminPost_eq_error (validate : String → Option Claims) (authHeader : Option String)
    (action : String) (target : Nat) (db : DB)
    (h : isAdminRequest validate authHeader = false) :
    ∃ e, adminPost validate authHeader action target db = Except.error e := by
  unfold isAdminRequest at h
  unfold adminPost adminOnly
  cases authHeader with
  | none => exact ⟨HttpError.unauthorized, rfl⟩
  | some s =>
    cases hv : validate (trimBearer s) with
    | none => simp [hv]
    | some c =>
      simp only [hv] at h
      rw [beq_eq_false_iff_ne] at h
      simp [hv, h]

/-- Helper: a response of adminPost is a success exactly when the request
is admin-authenticated. -/
theorem adminPost_isOk (validate : String → Option Claims) (authHeader : Option String)
    (action : String) (target : Nat) (db : DB) :
    isOk (adminPost validate authHeader action target db)
      = isAdminRequest validate authHeader := by
  cases h : isAdminRequest validate authHeader with
  | true => rw [adminPost_eq_ok validate authHeader action target db h]; rfl
  | false =>
    obtain ⟨e, he⟩ := adminPost_eq_error validate authHeader action target db h
    rw [he]; rfl

/-- C2.  The approve action succeeds exactly on admin-authenticated
requests (any other request is answered with 401/403 and produces no new
store state), the underlying status UPDATE is idempotent on the store, and
a second approve of the same id through the handler succeeds and returns
the unchanged state. -/
theorem approve_admin_gated_idempotent (validate : String → Option Claims)
    (authHeader : Option String) (target : Nat) (db : DB) :
    isOk (adminPost validate authHeader "approve" target db)
        = isAdminRequest validate authHeader
      ∧ approvePlace (approvePlace db target) target = approvePlace db target
      ∧ ∀ db', adminPost validate authHeader "approve" target db = Except.ok db' →
          adminPost validate authHeader "approve" target db' = Except.ok db' := by
  refine ⟨adminPost_isOk validate authHeader "approve" target db,
    approvePlace_idem db target, ?_⟩
  intro db' hok
  cases h : isAdminRequest validate authHeader with
  | false =>
    obtain ⟨e, he⟩ := adminPost_eq_error validate authHeader "approve" target db h
    rw [he] at hok
    exact absurd hok (by simp)
  | true =>
    rw [adminPost_eq_ok validate authHeader "approve" target db h] at hok
    have hdb' : db' = approvePlace db target := by
      have := Except.ok.inj hok
      simpa using this.symm
    rw [adminPost_eq_ok validate authHeader "approve" target db' h, hdb']
    simp [approvePlace_idem]

/-- Witness for C2 at a concrete input: with a verifier accepting the
header as the admin role, approving place 1 of the one-place store twice
through the handler succeeds and returns the once-approved state. -/
theorem approve_admin_gated_idempotent_witness :
    adminPost validateW hdrW "approve" 1 (approvePlace dbW 1)
      = Except.ok (approvePlace dbW 1) :=
  (approve_admin_gated_idempotent validateW hdrW 1 dbW).2.2 (approvePlace dbW 1)
    (adminPost_eq_ok validateW hdrW "approve" 1 dbW rfl)

/-- C3.  The reject action deletes every row with the target id; a
subsequent approve or reject of the same id leaves the store unchanged;
and when the request is admin-authenticated both follow-up requests still
succeed with 200 rather than erroring. -/
theorem reject_deletes_followups_noop (db : DB) (target : Nat)
    (validate : String → Option Claims) (authHeader : Option String) :
    (∀ p ∈ (rejectPlace db target).places, p.id ≠ target)
      ∧ approvePlace (rejectPlace db target) target = rejectPlace db target
      ∧ rejectPlace (rejectPlace db target) target = rejectPlace db target
      ∧ (isAdminRequest validate authHeader = true →
          adminPost validate authHeader "approve" target (rejectPlace db target)
              = Except.ok (rejectPlace db target)
            ∧ adminPost validate authHeader "reject" target (rejectPlace db target)
                = Except.ok (rejectPlace db target)) := by
  refine ⟨rejectPlace_removes db target, approvePlace_rejectPlace db target,
    rejectPlace_idem db target, ?_⟩
  intro h
  constructor
  · rw [adminPost_eq_ok validate authHeader "approve" target (rejectPlace db target) h]
    simp [approvePlace_rejectPlace]
  · rw [adminPost_eq_ok validate authHeader "reject" target (rejectPlace db target) h]
    simp [rejectPlace_idem]

/-- Witness for C3 at a concrete input: after rejecting place 1 of the
one-place store, both follow-up admin requests succeed and return the
unchanged state. -/
theorem reject_deletes_followups_noop_witness :
    adminPost validateW hdrW "approve" 1 (rejectPlace dbW 1)
        = Except.ok (rejectPlace dbW 1)
      ∧ adminPost validateW hdrW "reject" 1 (rejectPlace dbW 1)
          = Except.ok (rejectPlace dbW 1) :=
  (reject_deletes_followups_noop dbW 1 validateW hdrW).2.2.2 rfl

/-- Helper: after the points UPDATE for user uid, looking up uid finds the
same row with amount added to its points. -/
theorem find?_points_award_self (uid : Nat) (amount : Int) (users : List UserRow) :
    ((awardPoints uid amount users).find? (fun u => u.id == uid)).map (fun u => u.points)
      = (users.find? (fun u => u.id == uid)).map (fun u => u.points + amount) := by
  induction users with
  | nil => rfl
  | cons u us ih =>
    by_cases h : u.id = uid
    · simp [awardPoints, List.find?_cons, h]
    · simp only [awardPoints, List.map_cons] at ih ⊢
      rw [if_neg h, List.find?_cons, List.find?_cons]
      have hb : (u.id == uid) = false := by simp [h]
      rw [hb]
      exact ih

/-- Helper: the points UPDATE for user uid does not change what a lookup of
any other user id finds. -/
theorem find?_points_award_other (uid uid2 : Nat) (amount : Int) (users : List UserRow)
    (hne : uid2 ≠ uid) :
    ((awardPoints uid amount users).find? (fun u => u.id == uid2)).map (fun u => u.points)
      = (users.find? (fun u => u.id == uid2)).map (fun u => u.points) := by
  induction users with
  | nil => rfl
  | cons u us ih =>
    simp only [awardPoints, List.map_cons] at ih ⊢
    by_cases h : u.id = uid
    · have h2 : (u.id == uid2) = false := by
        simp only [beq_eq_false_iff_ne]
        rw [h]
        exact fun hh => hne hh.symm
      rw [if_pos h, List.find?_cons, List.find?_cons]
      have h2' : (({ u with points := u.points + amount } : UserRow).id == uid2) = false := h2
      rw [h2']
      exact ih
    · rw [if_neg h, List.find?_cons, List.find?_cons]
      cases h2 : (u.id == uid2) with
      | true => rfl
      | false => exact ih

/-- C6.  A place created by an authenticated user (creator id > 0) adds 50
points to exactly that user's balance and to nobody else's; a comment by an
authenticated user adds 10 points to exactly that user's balance and to
nobody else's; an anonymous place creation (creator id 0) changes no user
row at all while the created place still has status pending. -/
theorem points_reward_coupling (titleCase : String → String) (db : DB)
    (pr : PlaceRequest) (actor : Nat) (pid : Nat) (content : String) (rating : Int) :
    (actor > 0 →
        userPoints (placesPost titleCase db pr actor).1 actor
            = (userPoints db actor).map (fun x => x + 50)
          ∧ ∀ uid, uid ≠ actor →
              userPoints (placesPost titleCase db pr actor).1 uid = userPoints db uid)
      ∧ (actor > 0 →
          userPoints (commentsPost db pid content rating actor).1 actor
              = (userPoints db actor).map (fun x => x + 10)
            ∧ ∀ uid, uid ≠ actor →
                userPoints (commentsPost db pid content rating actor).1 uid
                  = userPoints db uid)
      ∧ (placesPost titleCase db pr 0).1.users = db.users
      ∧ (placesPost titleCase db pr 0).2.status = "pending" := by
  refine ⟨fun h => ⟨?_, fun uid hne => ?_⟩, fun h => ⟨?_, fun uid hne => ?_⟩, rfl, rfl⟩
  · simp only [userPoints, placesPost, if_pos h]
    rw [find?_points_award_self, Option.map_map]
    rfl
  · simp only [userPoints, placesPost, if_pos h]
    rw [find?_points_award_other actor uid 50 db.users hne]
  · simp only [userPoints, commentsPost, if_pos h]
    rw [find?_points_award_self, Option.map_map]
    rfl
  · simp only [userPoints, commentsPost, if_pos h]
    rw [find?_points_award_other actor uid 10 db.users hne]

/-- Witness for C6 at a concrete input: alice (id 1, 0 points) gets 50
points for creating a place and 10 points for posting a comment, and an
anonymous creation on her store changes no user row. -/
theorem points_reward_coupling_witness :
    userPoints (placesPost (fun s => s) aliceDB prW 1).1 1
        = (userPoints aliceDB 1).map (fun x => x + 50)
      ∧ userPoints (commentsPost aliceDB 1 "nice" 5 1).1 1
          = (userPoints aliceDB 1).map (fun x => x + 10)
      ∧ (placesPost (fun s => s) aliceDB prW 0).1.users = aliceDB.users :=
  ⟨((points_reward_coupling (fun s => s) aliceDB prW 1 1 "nice" 5).1 (by decide)).1,
    ((points_reward_coupling (fun s => s) aliceDB prW 1 1 "nice" 5).2.1 (by decide)).1,
    (points_reward_coupling (fun s => s) aliceDB prW 1 1 "nice" 5).2.2.1⟩

/-- Helper: membership in the public listing is exactly membership of an
approved row of the store, decorated with its is_favorite flag. -/
theorem mem_placesGet {db : DB} {viewer : Nat} {q : PlaceRow × Bool} :
    q ∈ placesGet db viewer
      ↔ (q.1 ∈ db.places ∧ q.1.status = "approved"
          ∧ q.2 = isFavoriteFlag db viewer q.1.id) := by
  unfold placesGet
  constructor
  · intro hq
    obtain ⟨p, hp, hpq⟩ := List.mem_map.mp hq
    have hp2 := (List.mem_insertionSort _).mp hp
    have hp3 := List.mem_filter.mp hp2
    have h1 : q.1 = p := by rw [← hpq]
    have h2 : q.2 = isFavoriteFlag db viewer p.id := by rw [← hpq]
    refine ⟨h1 ▸ hp3.1, ?_, ?_⟩
    · rw [h1]
      simpa using hp3.2
    · rw [h2, h1]
  · rintro ⟨h1, h2, h3⟩
    apply List.mem_map.mpr
    refine ⟨q.1, (List.mem_insertionSort _).mpr (List.mem_filter.mpr ⟨h1, by simp [h2]⟩), ?_⟩
    rw [← h3]

/-- Helper: membership in the proximity listing is exactly membership of an
approved row within the radius, decorated with its is_favorite flag. -/
theorem mem_placesProximityGet {db : DB} {viewer : Nat} {qlat qlng radius : ℝ}
    {q : PlaceRow × Bool} :
    q ∈ placesProximityGet db viewer qlat qlng radius
      ↔ (q.1 ∈ db.places ∧ q.1.status = "approved"
          ∧ distanceKm qlat qlng q.1.lat q.1.lng < radius
          ∧ q.2 = isFavoriteFlag db viewer q.1.id) := by
  unfold placesProximityGet
  constructor
  · intro hq
    obtain ⟨p, hp, hpq⟩ := List.mem_map.mp hq
    have hp2 := (List.mem_insertionSort _).mp hp
    have hp3 := List.mem_filter.mp hp2
    have hp4 := List.mem_filter.mp hp3.1
    have h1 : q.1 = p := by rw [← hpq]
    have h2 : q.2 = isFavoriteFlag db viewer p.id := by rw [← hpq]
    refine ⟨h1 ▸ hp4.1, ?_, ?_, ?_⟩
    · rw [h1]
      simpa using hp4.2
    · rw [h1]
      simpa using hp3.2
    · rw [h2, h1]
  · rintro ⟨h1, h2, h3, h4⟩
    apply List.mem_map.mpr
    refine ⟨q.1, (List.mem_insertionSort _).mpr (List.mem_filter.mpr
      ⟨List.mem_filter.mpr ⟨h1, by simp [h2]⟩, by simpa using h3⟩), ?_⟩
    rw [← h4]

/-- Helper: the proximity listing is sorted by ascending distance to the
query point. -/
theorem sorted_placesProximityGet (db : DB) (viewer : Nat) (qlat qlng radius : ℝ) :
    List.Sorted (fun a b : PlaceRow × Bool =>
        distanceKm qlat qlng a.1.lat a.1.lng ≤ distanceKm qlat qlng b.1.lat b.1.lng)
      (placesProximityGet db viewer qlat qlng radius) := by
  unfold placesProximityGet
  haveI hT : IsTotal PlaceRow (fun a b =>
      distanceKm qlat qlng a.lat a.lng ≤ distanceKm qlat qlng b.lat b.lng) :=
    ⟨fun a b => le_total _ _⟩
  haveI hR : IsTrans PlaceRow (fun a b =>
      distanceKm qlat qlng a.lat a.lng ≤ distanceKm qlat qlng b.lat b.lng) :=
    ⟨fun a b c hab hbc => le_trans hab hbc⟩
  exact List.Pairwise.map _ (fun a b hab => hab) (List.sorted_insertionSort _ _)

/-- C7.  The proximity query returns exactly the approved places whose
law-of-cosines great-circle distance (Earth radius 6371 km) to the query
point is within the radius, each decorated with its is_favorite flag, and
the returned list is ordered by ascending distance. -/
theorem proximity_query_exact_and_sorted (db : DB) (viewer : Nat)
    (qlat qlng radius : ℝ) :
    (∀ q : PlaceRow × Bool,
        q ∈ placesProximityGet db viewer qlat qlng radius
          ↔ (q.1 ∈ db.places ∧ q.1.status = "approved"
              ∧ distanceKm qlat qlng q.1.lat q.1.lng < radius
              ∧ q.2 = isFavoriteFlag db viewer q.1.id))
      ∧ List.Sorted (fun a b : PlaceRow × Bool =>
            distanceKm qlat qlng a.1.lat a.1.lng ≤ distanceKm qlat qlng b.1.lat b.1.lng)
          (placesProximityGet db viewer qlat qlng radius) :=
  ⟨fun _ => mem_placesProximityGet, sorted_placesProximityGet db viewer qlat qlng radius⟩

/-- C1.  A created place always has status pending; every entry of the
public listing (with or without proximity parameters) has status approved;
consequently the freshly created row is not among the rows the public
listing returns after the creation; and once an admin approve action sets
its status to approved, the row (now approved) does appear in the public
listing. -/
theorem create_pending_invisible_until_approved (titleCase : String → String)
    (db : DB) (pr : PlaceRequest) (creatorID viewer : Nat) :
    (placesPost titleCase db pr creatorID).2.status = "pending"
      ∧ (∀ q ∈ placesGet db viewer, q.1.status = "approved")
      ∧ (∀ q ∈ placesGet (placesPost titleCase db pr creatorID).1 viewer,
          q.1.status = "approved" ∧ q.1 ≠ (placesPost titleCase db pr creatorID).2)
      ∧ (∀ qlat qlng radius : ℝ,
          ∀ q ∈ placesProximityGet (placesPost titleCase db pr creatorID).1 viewer
              qlat qlng radius, q.1.status = "approved")
      ∧ (∃ b, (approveRow (placesPost titleCase db pr creatorID).2.id
                (placesPost titleCase db pr creatorID).2, b)
            ∈ placesGet (approvePlace (placesPost titleCase db pr creatorID).1
                (placesPost titleCase db pr creatorID).2.id) viewer) := by
  refine ⟨rfl, ?_, ?_, ?_, ?_⟩
  · intro q hq
    exact (mem_placesGet.mp hq).2.1
  · intro q hq
    have h := mem_placesGet.mp hq
    refine ⟨h.2.1, fun hcontra => ?_⟩
    have hpend : q.1.status = "pending" := by
      rw [hcontra]
      rfl
    exact absurd (h.2.1.symm.trans hpend) (by decide)
  · intro qlat qlng radius q hq
    exact (mem_placesProximityGet.mp hq).2.1
  · refine ⟨isFavoriteFlag (approvePlace (placesPost titleCase db pr creatorID).1
        (placesPost titleCase db pr creatorID).2.id) viewer
        (approveRow (placesPost titleCase db pr creatorID).2.id
          (placesPost titleCase db pr creatorID).2).id,
      mem_placesGet.mpr ⟨?_, ?_, rfl⟩⟩
    · exact List.mem_map_of_mem (approveRow (placesPost titleCase db pr creatorID).2.id)
        (List.mem_cons_self _ _)
    · show (approveRow (placesPost titleCase db pr creatorID).2.id
        (placesPost titleCase db pr creatorID).2).status = "approved"
      unfold approveRow
      rw [if_pos rfl]

/-- Witness for C1 at a concrete input: an anonymous creation on the
one-place store produces a pending place. -/
theorem create_pending_invisible_until_approved_witness :
    (placesPost (fun s => s) dbW prW 0).2.status = "pending" :=
  (create_pending_invisible_until_approved (fun s => s) dbW prW 0 0).1

/-- Witness for C7 at a concrete input: the proximity listing of the empty
store at the origin with radius 1 is sorted by ascending distance. -/
theorem proximity_query_exact_and_sorted_witness :
    List.Sorted (fun a b : PlaceRow × Bool =>
        distanceKm 0 0 a.1.lat a.1.lng ≤ distanceKm 0 0 b.1.lat b.1.lng)
      (placesProximityGet emptyDB 0 0 0 1) :=
  (proximity_query_exact_and_sorted emptyDB 0 0 0 1).2

end Maplas
